import Mathlib

/-
Verification of the `generate_llms_txt.py` documentation-build utility.

The script reads a fixed set of markdown files, cleans each file's text with a
fixed sequence of `re.sub` substitutions, and emits two aggregated artifacts:
a navigation index (`llms.txt`) and a full-content dump (`llms-full.txt`).

This file gives a shallow embedding of the script:
* markdown text is a `List Char` (Python `str` is a sequence of code points);
* each `re.sub` call of `_clean_markdown_content` becomes a character scanner
  that mirrors the left-to-right, non-overlapping matching of `re.sub` for
  that particular pattern;
* the filesystem is a map from configured relative path to a `FileState`;
* the two builder functions become functions from the loaded records to the
  list of string parts the script joins and writes.
-/

set_option maxRecDepth 8192

/-- Characters removed by Python's `str.strip()` with no arguments
(ASCII whitespace as classified by `str.isspace`). -/
def pySpace (c : Char) : Bool :=
  c = ' ' || c = '\t' || c = '\n' || c = '\r' || c = '\x0b' || c = '\x0c'

/-- Python `content.strip()` on a list of characters: drop leading and
trailing whitespace. -/
def pyStrip (l : List Char) : List Char :=
  ((l.dropWhile pySpace).reverse.dropWhile pySpace).reverse

/-- Scanner for `re.sub(r'## 🎯 Table of Contents.*?(?=##|\Z)', '', content,
flags=re.DOTALL)` (step 1 of `_clean_markdown_content`).

In `false` mode the scanner looks for the literal marker; on a match it
switches to `true` (skip) mode, which discards characters lazily until the
lookahead `##` holds or the text ends, exactly as the non-greedy `.*?` with
lookahead `(?=##|\Z)` does.  Scanning resumes at the `##`, so a following
marker is matched again, as `re.sub`'s continued scan would.  The `Nat`
argument is recursion fuel; the wrapper `removeToc` supplies
`2 * length + 2`, which exceeds the number of scanner steps (every step
either consumes a character or is a mode switch that is immediately followed
by a consuming step). -/
def rtGo : Nat → Bool → List Char → List Char
  | _, _, [] => []
  | 0, _, l => l
  | f+1, false, '#' :: '#' :: ' ' :: '🎯' :: ' ' :: 'T' :: 'a' :: 'b' :: 'l' :: 'e' :: ' ' :: 'o' :: 'f' :: ' ' :: 'C' :: 'o' :: 'n' :: 't' :: 'e' :: 'n' :: 't' :: 's' ::cs =>
      rtGo f true cs
  | f+1, false, c::cs => c :: rtGo f false cs
  | f+1, true, '#' :: '#' ::cs => rtGo f false ('#' :: '#' ::cs)
  | f+1, true, _::cs => rtGo f true cs

/-- Step 1 of `_clean_markdown_content`: remove table-of-contents sections. -/
def removeToc (l : List Char) : List Char :=
  rtGo (2 * l.length + 2) false l

/-- Scanner for `re.sub(r'\*\*Next:\*\*.*?(?=\n|\Z)', '', content)` (step 2
of `_clean_markdown_content`).  Without `re.DOTALL`, `.` does not match a
newline, so a match extends from the literal `**Next:**` up to (excluding)
the next newline, or to the end of the text.  In skip (`true`) mode the
scanner discards characters until a newline; the pattern cannot match at a
newline, so the newline is emitted and normal scanning resumes after it. -/
def rnGo : Bool → List Char → List Char
  | false, '*' :: '*' :: 'N' :: 'e' :: 'x' :: 't' :: ':' :: '*' :: '*' ::cs => rnGo true cs
  | false, c::cs => c :: rnGo false cs
  | _, [] => []
  | true, '\n' ::cs => '\n' :: rnGo false cs
  | true, _::cs => rnGo true cs

/-- Step 2 of `_clean_markdown_content`: remove `**Next:**` breadcrumbs. -/
def removeNext (l : List Char) : List Char := rnGo false l

/-- Scanner for `re.sub(r'---\n\n\*Last updated:.*?(?=\n|\Z)', '', content)`
(step 3 of `_clean_markdown_content`).  A match starts at the literal
`---\n\n*Last updated:` — the horizontal rule, the blank line and the start
of the footer line — and extends to (excluding) the next newline or to the
end of the text.  Skip mode is as in `rnGo`: the footer pattern starts with
`-`, so it cannot match at the terminating newline. -/
def rfGo : Bool → List Char → List Char
  | false, '-' :: '-' :: '-' :: '\n' :: '\n' :: '*' :: 'L' :: 'a' :: 's' :: 't' :: ' ' :: 'u' :: 'p' :: 'd' :: 'a' :: 't' :: 'e' :: 'd' :: ':' ::cs => rfGo true cs
  | false, c::cs => c :: rfGo false cs
  | _, [] => []
  | true, c::cs => if c = '\n' then '\n' :: rfGo false cs else rfGo true cs

/-- Step 3 of `_clean_markdown_content`: remove `Last updated:` footers that
follow a horizontal rule. -/
def removeFooter (l : List Char) : List Char := rfGo false l

/-- Does the text contain the comment terminator `-->`? -/
def hasCommentClose : List Char → Bool
  | '-' :: '-' :: '>' ::_ => true
  | _::cs => hasCommentClose cs
  | [] => false

/-- Scanner for `re.sub(r'<!--.*?-->', '', content, flags=re.DOTALL)` (step 5
of `_clean_markdown_content`).  A match starts at `<!--` and ends at the
first following `-->` (non-greedy `.*?`).  If `<!--` occurs with no `-->`
anywhere after it, no match can start at or after that position (a later
match would need a `<!--` and then a `-->`, and `<!` cannot occur inside the
opener's remaining characters `!--`), so the rest of the text is kept
verbatim. -/
def rcGo : Bool → List Char → List Char
  | false, '<' :: '!' :: '-' :: '-' ::cs =>
      if hasCommentClose cs then rcGo true cs else '<' :: '!' :: '-' :: '-' ::cs
  | false, c::cs => c :: rcGo false cs
  | _, [] => []
  | true, '-' :: '-' :: '>' ::cs => rcGo false cs
  | true, _::cs => rcGo true cs

/-- Step 5 of `_clean_markdown_content`: strip HTML comment blocks. -/
def removeComments (l : List Char) : List Char := rcGo false l

/-- Does the text start with two newlines? -/
def twoNl : List Char → Bool
  | '\n' :: '\n' ::_ => true
  | _ => false

/-- `re.sub(r'\n{3,}', '\n\n', content)` (step 4 of
`_clean_markdown_content`): every maximal run of three or more newlines is
replaced by exactly two.  Equivalently, character by character: a newline is
dropped exactly when it is immediately followed by two more newlines, which
keeps the final two newlines of every long run and leaves short runs
untouched. -/
def collapseNl : List Char → List Char
  | [] => []
  | '\n' ::cs => if twoNl cs then collapseNl cs else '\n' :: collapseNl cs
  | c::cs => c :: collapseNl cs

/-- `_clean_markdown_content`, in the source's order: remove
table-of-contents sections, remove `**Next:**` breadcrumbs, remove
`Last updated:` footers, collapse newline runs, remove HTML comments, and
strip the result. -/
def cleanMarkdownContent (l : List Char) : List Char :=
  pyStrip (rcGo false (collapseNl (rfGo false (rnGo false (removeToc l)))))

/-- `_clean_markdown_content` as a function on `String`. -/
def cleanStr (s : String) : String :=
  String.mk (cleanMarkdownContent s.data)

/-- One documentation file record (`DocFile` dataclass in the source):
relative path, display title, description, cleaned content, priority rank
(lower = more important). -/
structure DocFile where
  path : String
  title : String
  description : String
  content : String
  priority : Nat
deriving DecidableEq

/-- State of one configured path in the documentation directory: the file is
absent, or it is present and reads as `raw`, or it is present but reading it
raises an exception with message `msg`. -/
inductive FileState where
  | absent
  | ok (raw : String)
  | readError (msg : String)
deriving DecidableEq

/-- The configuration table of `_parse_documentation`: relative path, title,
description, priority, in the source's insertion order. -/
def fileConfig : List (String × String × String × Nat) :=
  [ ("README.md", "Documentation Index",
     "Complete navigation hub for all Flutter App Shell documentation", 1),
    ("getting-started.md", "Getting Started Guide",
     "Step-by-step tutorial to build your first app in 5-10 minutes", 1),
    ("architecture.md", "Architecture Overview",
     "Service-oriented architecture, adaptive UI, and reactive state management principles", 2),
    ("ui-systems/README.md", "Adaptive UI Systems",
     "Complete guide to Material, Cupertino, and ForUI with implementation details", 2),
    ("services/README.md", "Services Documentation",
     "Overview of all 30+ services with architecture patterns and integration guide", 2),
    ("examples/patterns.md", "Common Patterns & Examples",
     "Real-world code examples for authentication, data management, UI patterns, and performance", 3),
    ("migration-guide.md", "Migration Guide",
     "Comprehensive guide for migrating existing Flutter apps with proven strategies", 3),
    ("reference/best-practices.md", "Best Practices & Guidelines",
     "Guidelines for maintainable, performant code with common pitfalls to avoid", 3),
    ("services/database.md", "Database Service",
     "NoSQL document database with reactive queries, cloud sync, and offline-first architecture", 4),
    ("flutter_app_shell_spec.md", "Framework Specification",
     "Comprehensive technical specification and design document", 5) ]

/-- `_read_file`, content part: a readable file is cleaned; a file whose read
raises is treated as empty content.  (`absent` never reaches `_read_file`;
the loader checks existence first.) -/
def readFileContent : FileState → String
  | .ok raw => cleanStr raw
  | _ => ""

/-- `_read_file`, warning part: the `print` of the `except` branch,
`⚠️  Error reading {file_path}: {e}`, with `file_path = docs/<relative>`. -/
def readFileWarnings : FileState → String → List String
  | .readError msg, p => ["⚠️  Error reading docs/" ++ p ++ ": " ++ msg]
  | _, _ => []

/-- The loader loop of `_parse_documentation`, before the sort: for each
configured path, if the file exists, read (and clean) it and construct a
`DocFile` with the configured metadata. -/
def rawRecords (fs : String → FileState) : List DocFile :=
  fileConfig.filterMap (fun e =>
    match fs e.1 with
    | .absent => none
    | st => some ⟨e.1, e.2.1, e.2.2.1, readFileContent st, e.2.2.2⟩)

/-- The warnings printed while loading. -/
def parseWarnings (fs : String → FileState) : List String :=
  fileConfig.flatMap (fun e =>
    match fs e.1 with
    | .absent => []
    | st => readFileWarnings st e.1)

/-- Insert a record into a priority-sorted list, before the first record of
priority ≥ its own. -/
def insertDoc (d : DocFile) : List DocFile → List DocFile
  | [] => [d]
  | e :: es => if d.priority ≤ e.priority then d :: e :: es else e :: insertDoc d es

/-- `self.doc_files.sort(key=lambda x: x.priority)`: Python's `list.sort` is
a stable ascending sort by the key; this stable insertion sort produces the
same list (any two stable sorts by the same key agree). -/
def sortDocs : List DocFile → List DocFile
  | [] => []
  | d :: ds => insertDoc d (sortDocs ds)

/-- `_parse_documentation`: load every configured file that exists, then sort
ascending by priority (stably). -/
def docsOf (fs : String → FileState) : List DocFile :=
  sortDocs (rawRecords fs)

/-- The H1 title part of `_build_llms_txt_content`. -/
def llmsTitle : String := "# Flutter App Shell\n\n"

/-- The blockquote summary part of `_build_llms_txt_content` (verbatim,
including the two trailing spaces of the UI-system-switching line and the
trailing blank line). -/
def llmsSummary : String := "> A comprehensive Flutter application framework for rapid development with adaptive UI, service architecture, state management, and cloud synchronization capabilities. Zero-configuration setup with 30+ built-in services, complete UI system switching (Material/Cupertino/ForUI), offline-first architecture with cloud sync, and reactive state management using Signals.

Key Features:
- 🚀 **5-minute app creation** - Single function call creates fully-featured app
- 🎨 **Complete UI system switching** - Entire app adapts between Material, Cupertino, and ForUI design systems  
- 🔧 **30+ built-in services** - Authentication, database, networking, file storage, preferences, and more
- 📱 **Responsive navigation** - Automatic adaptation: bottom tabs → navigation rail → sidebar
- ☁️ **Offline-first architecture** - Local database with automatic cloud sync via Supabase
- 🔄 **Reactive state management** - Signals-based reactivity with granular UI updates
- 🛠️ **Service inspector** - Real-time debugging and monitoring of all services

"

/-- The static sections table of `_build_llms_txt_content`: five sections,
each a header and a list of (display title, link target path, description)
triples. -/
def sections : List (String × List (String × String × String)) :=
  [ ("## Getting Started",
     [ ("Getting Started Guide", "docs/getting-started.md",
        "Step-by-step tutorial to build your first app in 5-10 minutes with working code examples"),
       ("Installation & Setup", "docs/installation.md",
        "Detailed installation instructions and project setup") ]),
    ("## Architecture & Core Concepts",
     [ ("Architecture Overview", "docs/architecture.md",
        "Service-oriented architecture, dependency injection, adaptive UI factory pattern, and reactive state management"),
       ("Services Documentation", "docs/services/README.md",
        "Complete guide to 30+ built-in services including database, authentication, networking, and file storage"),
       ("Framework Specification", "docs/flutter_app_shell_spec.md",
        "Comprehensive technical specification covering all framework components and design decisions") ]),
    ("## UI & Design Systems",
     [ ("Adaptive UI Systems", "docs/ui-systems/README.md",
        "Complete guide to Material, Cupertino, and ForUI with factory pattern implementation and visual examples"),
       ("Component Library", "docs/ui-systems/components.md",
        "30+ adaptive widgets with platform-specific implementations and usage examples") ]),
    ("## Implementation Guides",
     [ ("Common Patterns", "docs/examples/patterns.md",
        "Real-world code examples for authentication flows, data management, UI composition, navigation, and performance optimization"),
       ("Best Practices", "docs/reference/best-practices.md",
        "Guidelines for maintainable, performant code with common pitfalls to avoid and recommended patterns"),
       ("Migration Guide", "docs/migration-guide.md",
        "Comprehensive guide for migrating existing Flutter apps with incremental adoption strategies") ]),
    ("## Optional",
     [ ("Database Service", "docs/services/database.md",
        "NoSQL document database with Isar backend, reactive queries, cloud sync, and conflict resolution"),
       ("API Reference", "docs/api/README.md",
        "Complete API documentation for all services and components"),
       ("Advanced Topics", "docs/advanced/README.md",
        "Custom services, performance optimization, and extending the framework") ]) ]

/-- `link_path.replace("docs/", "")`: Python `str.replace` removes every
non-overlapping occurrence of `docs/`, scanning left to right and continuing
after each replacement. -/
def replaceDocsAux : List Char → List Char
  | 'd' :: 'o' :: 'c' :: 's' :: '/' ::cs => replaceDocsAux cs
  | c :: cs => c :: replaceDocsAux cs
  | [] => []

/-- `link_path.replace("docs/", "")` on `String`. -/
def pyReplaceDocs (s : String) : String :=
  String.mk (replaceDocsAux s.data)

/-- The bullet line `- [{link_title}]({link_path}) - {description}\n`
emitted for an included link. -/
def bulletOf (link : String × String × String) : String :=
  "- [" ++ link.1 ++ "](" ++ link.2.1 ++ ") - " ++ link.2.2 ++ "\n"

/-- The guard `any(doc.path == link_path.replace("docs/", "") for doc in
self.doc_files)` of `_build_llms_txt_content`. -/
def linkIncluded (docs : List DocFile) (p : String) : Bool :=
  docs.any (fun doc => doc.path == pyReplaceDocs p)

/-- The parts one section contributes: its header line, the bullet lines of
the links whose target was loaded, and a closing blank line. -/
def sectionTxtParts (docs : List DocFile) (s : String × List (String × String × String)) :
    List String :=
  (s.1 ++ "\n") ::
    (s.2.filterMap (fun link =>
      if linkIncluded docs link.2.1 then some (bulletOf link) else none)) ++ ["\n"]

/-- The `content_parts` list built by `_build_llms_txt_content`. -/
def buildLlmsTxtParts (docs : List DocFile) : List String :=
  llmsTitle :: llmsSummary :: sections.flatMap (sectionTxtParts docs)

/-- `_build_llms_txt_content`: the joined parts. -/
def buildLlmsTxtContent (docs : List DocFile) : String :=
  String.join (buildLlmsTxtParts docs)

/-- The H1 title part of `_generate_llms_full_txt`. -/
def fullTitle : String := "# Flutter App Shell - Complete Documentation\n\n"

/-- The overview part of `_generate_llms_full_txt` (verbatim). -/
def fullSummary : String := "> A comprehensive Flutter application framework for rapid development with adaptive UI, service architecture, state management, and cloud synchronization capabilities. This document contains the complete framework documentation optimized for large language model consumption.

## Framework Overview

Flutter App Shell provides a zero-configuration foundation for Flutter applications with:

- **Service-Oriented Architecture**: Dependency injection with GetIt, reactive services, health monitoring
- **Adaptive UI System**: Complete runtime switching between Material, Cupertino, and ForUI design systems
- **Reactive State Management**: Signals-based reactivity with granular UI updates and automatic persistence
- **Responsive Navigation**: Automatic layout adaptation (bottom tabs → navigation rail → sidebar)
- **Offline-First Data**: Local Isar database with automatic Supabase cloud sync and conflict resolution
- **30+ Built-in Services**: Authentication, database, networking, file storage, preferences, and more

"

/-- `_build_quick_reference` (verbatim; braces of the embedded Dart snippets
written with their escape codes). -/
def quickReference : String := "---

## Quick Reference for AI Development

### Basic App Setup
```dart\nimport 'package:flutter_app_shell/flutter_app_shell.dart';

void main() \x7b
  runShellApp(() async \x7b
    return AppConfig(
      title: 'My App',
      routes: [
        AppRoute(
          title: 'Home',
          path: '/',
          icon: Icons.home,
          builder: (context, state) => HomeScreen(),
        ),
      ],
    );
  \x7d);
\x7d
```

### Using Services
```dart
// Get service from dependency injection
final db = getIt<DatabaseService>();
final auth = getIt<AuthenticationService>();

// Create reactive data
await db.create('todos', \x7b
  'title': 'Buy groceries',
  'completed': false,
\x7d);

// Watch for changes
db.watchByType('todos').listen((documents) \x7b
  print('Todos updated: $\x7bdocuments.length\x7d');
\x7d);
```

### Adaptive UI Pattern
```dart
class MyWidget extends StatelessWidget \x7b
  @override
  Widget build(BuildContext context) \x7b
    final ui = getAdaptiveFactory(context);
    
    return ui.scaffold(
      body: Column(
        children: [
          ui.button(
            label: 'Adaptive Button',
            onPressed: () \x7b\x7d,
          ),
          ui.textField(
            labelText: 'Adaptive Input',
            onChanged: (value) \x7b\x7d,
          ),
        ],
      ),
    );
  \x7d
\x7d
```

### Reactive State with Signals
```dart
// Create reactive state
final counter = signal(0);

// Watch in UI (automatically rebuilds)
Watch((context) => Text('Count: $\x7bcounter.value\x7d'))

// Update from anywhere
counter.value++;
```

### Key Patterns to Follow
1. **Always use adaptive factory**: `getAdaptiveFactory(context)` instead of platform-specific widgets
2. **Service-first architecture**: Business logic in services, not widgets
3. **Reactive UI**: Use `Watch()` widgets for automatic updates
4. **Dependency injection**: Access services via `getIt<ServiceType>()`
5. **Offline-first**: Local database with automatic cloud sync

This framework follows Material Design, iOS Human Interface Guidelines, and modern minimalist design principles depending on the selected UI system.
"

/-- The guard `if doc.content.strip():` of `_generate_llms_full_txt`. -/
def docNonEmpty (d : DocFile) : Bool :=
  !(pyStrip d.content.data).isEmpty

/-- The four parts `_generate_llms_full_txt` appends for one document:
rule + H2 title, italic description, content, blank separator. -/
def docSectionParts (d : DocFile) : List String :=
  ["\n---\n\n## " ++ d.title ++ "\n\n",
   "*" ++ d.description ++ "*\n\n",
   d.content,
   "\n\n"]

/-- The `content_parts` list built by `_generate_llms_full_txt` before the
join. -/
def buildLlmsFullParts (docs : List DocFile) : List String :=
  fullTitle :: fullSummary ::
    (docs.flatMap (fun d => if docNonEmpty d then docSectionParts d else [])) ++
    [quickReference]

/-- `_generate_llms_full_txt`: join the parts, then collapse newline runs
once more (`re.sub(r'\n{3,}', '\n\n', full_content)`). -/
def llmsFullContent (docs : List DocFile) : String :=
  String.mk (collapseNl (String.join (buildLlmsFullParts docs)).data)

/-- The bytes the script writes to `llms.txt` for a given snapshot of the
documentation directory. -/
def llmsTxtOutput (fs : String → FileState) : String :=
  buildLlmsTxtContent (docsOf fs)

/-- The bytes the script writes to `llms-full.txt` for a given snapshot of
the documentation directory. -/
def llmsFullOutput (fs : String → FileState) : String :=
  llmsFullContent (docsOf fs)

/-- The flattened list of the 13 (title, target path, description) triples of
the static sections table. -/
def allLinks : List (String × String × String) :=
  sections.flatMap (fun s => s.2)

/-- The link-target comparison as the specification words it: the target path
with a leading `docs/` prefix stripped.  On every link target of the static
sections table this agrees with the source's `replace("docs/", "")` (each
target contains `docs/` exactly once, as its leading prefix). -/
def specStripDocs (p : String) : String :=
  if "docs/".data.isPrefixOf p.data then String.mk (p.data.drop 5) else p

/-- C1 (status: code_bug): the Content Cleaner is NOT idempotent.  At the
input `"A\n\n<!--x-->\n\nB"` a single application removes the HTML comment
after the newline-collapsing step has already run, leaving the four-newline
run `"A\n\n\n\nB"`; a second application collapses it to `"A\n\nB"`, so
`clean (clean x) ≠ clean x`.  The cleaning steps themselves match the spec;
their order (comment removal after newline collapsing) contradicts the
spec's stated requirement that whitespace collapsing run after removals and
that the function be idempotent. -/
theorem c1_clean_not_idempotent :
    cleanMarkdownContent (cleanMarkdownContent "A\n\n<!--x-->\n\nB".data) =
      "A\n\nB".data ∧
    cleanMarkdownContent (cleanMarkdownContent "A\n\n<!--x-->\n\nB".data) ≠
      cleanMarkdownContent "A\n\n<!--x-->\n\nB".data := by
  exact ⟨by decide, by decide⟩

/-- C2 (status: code_bug): the Content Cleaner's output can contain a run of
more than two consecutive newlines.  At `"Intro\n\n<!-- note -->\n\nOutro"`
the comment removal (which runs after the newline-collapsing step) splices
the surrounding blank lines into the four-newline run
`"Intro\n\n\n\nOutro"`. -/
theorem c2_output_can_contain_triple_newline :
    cleanMarkdownContent "Intro\n\n<!-- note -->\n\nOutro".data =
      "Intro\n\n\n\nOutro".data ∧
    ['\n', '\n', '\n'] <:+:
      cleanMarkdownContent "Intro\n\n<!-- note -->\n\nOutro".data := by
  exact ⟨by decide, by decide⟩

theorem mem_sectionHeader_part (docs : List DocFile)
    (s : String × List (String × String × String)) (hs : s ∈ sections) :
    (s.1 ++ "\n") ∈ buildLlmsTxtParts docs := by
  unfold buildLlmsTxtParts
  exact List.mem_cons_of_mem _ (List.mem_cons_of_mem _
    (List.mem_flatMap.mpr ⟨s, hs, List.mem_cons_self _ _⟩))

/-- C4 (status: confirmed): whatever the collection of loaded records — in
particular the empty one — `_build_llms_txt_content` emits all five fixed
section header lines; link pruning never suppresses a header. -/
theorem c4_section_headers_always_present (docs : List DocFile) :
    "## Getting Started\n" ∈ buildLlmsTxtParts docs ∧
    "## Architecture & Core Concepts\n" ∈ buildLlmsTxtParts docs ∧
    "## UI & Design Systems\n" ∈ buildLlmsTxtParts docs ∧
    "## Implementation Guides\n" ∈ buildLlmsTxtParts docs ∧
    "## Optional\n" ∈ buildLlmsTxtParts docs := by
  exact ⟨mem_sectionHeader_part docs sections[0] (List.getElem_mem _),
    mem_sectionHeader_part docs sections[1] (List.getElem_mem _),
    mem_sectionHeader_part docs sections[2] (List.getElem_mem _),
    mem_sectionHeader_part docs sections[3] (List.getElem_mem _),
    mem_sectionHeader_part docs sections[4] (List.getElem_mem _)⟩

theorem mem_filterMap_ite {α β : Type} (l : List α) (c : α → Bool) (g : α → β) (x : β) :
    x ∈ l.filterMap (fun a => if c a then some (g a) else none) ↔
      ∃ a ∈ l, c a = true ∧ x = g a := by
  simp only [List.mem_filterMap]
  constructor
  · rintro ⟨a, ha, hfa⟩
    by_cases hc : c a
    · rw [if_pos hc] at hfa
      exact ⟨a, ha, hc, (Option.some_injective _ hfa).symm⟩
    · rw [if_neg hc] at hfa
      exact absurd hfa (Option.some_ne_none _).symm
  · rintro ⟨a, ha, hc, rfl⟩
    exact ⟨a, ha, by rw [if_pos hc]⟩

theorem mem_buildLlmsTxtParts_iff (docs : List DocFile) (x : String) :
    x ∈ buildLlmsTxtParts docs ↔
      x = llmsTitle ∨ x = llmsSummary ∨
      ∃ s ∈ sections, (x = s.1 ++ "\n" ∨
        (∃ link ∈ s.2, linkIncluded docs link.2.1 = true ∧ x = bulletOf link) ∨
        x = "\n") := by
  unfold buildLlmsTxtParts sectionTxtParts
  simp only [List.mem_cons, List.mem_flatMap, List.mem_append,
    List.mem_singleton, mem_filterMap_ite]
  constructor
  · rintro (h | h | ⟨s, hs, (h | ⟨l, hl, hc, he⟩) | h | h⟩)
    · exact Or.inl h
    · exact Or.inr (Or.inl h)
    · exact Or.inr (Or.inr ⟨s, hs, Or.inl h⟩)
    · exact Or.inr (Or.inr ⟨s, hs, Or.inr (Or.inl ⟨l, hl, hc, he⟩)⟩)
    · exact Or.inr (Or.inr ⟨s, hs, Or.inr (Or.inr h)⟩)
    · exact absurd h (List.not_mem_nil x)
  · rintro (h | h | ⟨s, hs, h | ⟨l, hl, hc, he⟩ | h⟩)
    · exact Or.inl h
    · exact Or.inr (Or.inl h)
    · exact Or.inr (Or.inr ⟨s, hs, Or.inl (Or.inl h)⟩)
    · exact Or.inr (Or.inr ⟨s, hs, Or.inl (Or.inr ⟨l, hl, hc, he⟩)⟩)
    · exact Or.inr (Or.inr ⟨s, hs, Or.inr (Or.inl h)⟩)

theorem bullets_injective :
    ∀ l1 ∈ allLinks, ∀ l2 ∈ allLinks, bulletOf l1 = bulletOf l2 → l1 = l2 := by decide

theorem bullet_ne_fixed_parts :
    ∀ l ∈ allLinks, bulletOf l ≠ llmsTitle ∧ bulletOf l ≠ llmsSummary ∧
      bulletOf l ≠ "\n" ∧ ∀ s ∈ sections, bulletOf l ≠ s.1 ++ "\n" := by decide

theorem replace_eq_strip_on_links :
    ∀ l ∈ allLinks, pyReplaceDocs l.2.1 = specStripDocs l.2.1 := by decide

theorem mem_allLinks_iff (link : String × String × String) :
    link ∈ allLinks ↔ ∃ s ∈ sections, link ∈ s.2 := by
  unfold allLinks
  exact List.mem_flatMap

/-- C3 (status: confirmed): a link bullet line of the static sections table
appears among the parts of the llms.txt content exactly when some loaded
`DocFile`'s path equals the link's target path with the leading `docs/`
prefix stripped (the source's `replace("docs/", "")` agrees with the
leading-prefix strip on every table entry); a triple whose target was not
loaded contributes no line. -/
theorem c3_index_link_iff_loaded (docs : List DocFile)
    (link : String × String × String) (h : link ∈ allLinks) :
    bulletOf link ∈ buildLlmsTxtParts docs ↔
      ∃ rec ∈ docs, rec.path = specStripDocs link.2.1 := by
  have hrepl := replace_eq_strip_on_links link h
  constructor
  · intro hm
    rcases (mem_buildLlmsTxtParts_iff docs _).1 hm with
      h1 | h2 | ⟨s, hs, h3 | ⟨l2, hl2, hc, he⟩ | h4⟩
    · exact absurd h1 (bullet_ne_fixed_parts link h).1
    · exact absurd h2 (bullet_ne_fixed_parts link h).2.1
    · exact absurd h3 ((bullet_ne_fixed_parts link h).2.2.2 s hs)
    · have hl2' : l2 ∈ allLinks := (mem_allLinks_iff l2).2 ⟨s, hs, hl2⟩
      have heq : link = l2 := bullets_injective link h l2 hl2' he
      subst heq
      rcases List.any_eq_true.1 hc with ⟨doc, hdoc, hbeq⟩
      exact ⟨doc, hdoc, by rw [← hrepl]; exact beq_iff_eq.1 hbeq⟩
    · exact absurd h4 (bullet_ne_fixed_parts link h).2.2.1
  · rintro ⟨rec, hrec, hpath⟩
    rcases (mem_allLinks_iff link).1 h with ⟨s, hs, hl⟩
    refine (mem_buildLlmsTxtParts_iff docs _).2
      (Or.inr (Or.inr ⟨s, hs, Or.inr (Or.inl ⟨link, hl, ?_, rfl⟩)⟩))
    exact List.any_eq_true.2 ⟨rec, hrec, beq_iff_eq.2 (by rw [hrepl]; exact hpath)⟩

theorem c3_witness :
    (bulletOf ("Getting Started Guide", "docs/getting-started.md",
        "Step-by-step tutorial to build your first app in 5-10 minutes with working code examples") ∈
      buildLlmsTxtParts [⟨"getting-started.md", "T", "D", "body", 1⟩]) ↔
      ∃ rec ∈ [(⟨"getting-started.md", "T", "D", "body", 1⟩ : DocFile)],
        rec.path = specStripDocs "docs/getting-started.md" :=
  c3_index_link_iff_loaded _ _ (by decide)

/-- C10 (status: confirmed): the llms.txt content is a function of the set of
loaded paths alone; records' titles, descriptions, contents and priorities
never influence it. -/
theorem c10_index_depends_only_on_paths (docs1 docs2 : List DocFile)
    (h : ∀ p, (∃ r ∈ docs1, r.path = p) ↔ (∃ r ∈ docs2, r.path = p)) :
    buildLlmsTxtContent docs1 = buildLlmsTxtContent docs2 := by
  have hinc : ∀ p, linkIncluded docs1 p = linkIncluded docs2 p := by
    intro p
    have hiff := h (pyReplaceDocs p)
    unfold linkIncluded
    rw [Bool.eq_iff_iff, List.any_eq_true, List.any_eq_true]
    constructor
    · rintro ⟨r, hr, hb⟩
      rcases hiff.1 ⟨r, hr, beq_iff_eq.1 hb⟩ with ⟨r2, hr2, he2⟩
      exact ⟨r2, hr2, beq_iff_eq.2 he2⟩
    · rintro ⟨r, hr, hb⟩
      rcases hiff.2 ⟨r, hr, beq_iff_eq.1 hb⟩ with ⟨r2, hr2, he2⟩
      exact ⟨r2, hr2, beq_iff_eq.2 he2⟩
  have hfun : (fun link : String × String × String =>
      if linkIncluded docs1 link.2.1 = true then some (bulletOf link) else none) =
      (fun link => if linkIncluded docs2 link.2.1 = true then some (bulletOf link) else none) := by
    funext link
    rw [hinc]
  have hsec : sectionTxtParts docs1 = sectionTxtParts docs2 := by
    funext s
    unfold sectionTxtParts
    rw [hfun]
  unfold buildLlmsTxtContent buildLlmsTxtParts
  rw [hsec]

theorem c10_witness :
    buildLlmsTxtContent [⟨"architecture.md", "A", "B", "C", 2⟩] =
      buildLlmsTxtContent
        [⟨"architecture.md", "X", "Y", "Z", 9⟩, ⟨"architecture.md", "P", "Q", "R", 1⟩] := by
  refine c10_index_depends_only_on_paths _ _ (fun p => ?_)
  simp

theorem mem_insertDoc (x d : DocFile) (l : List DocFile) :
    x ∈ insertDoc d l ↔ x = d ∨ x ∈ l := by
  induction l with
  | nil => simp [insertDoc]
  | cons e es ih =>
    unfold insertDoc
    by_cases hle : d.priority ≤ e.priority
    · rw [if_pos hle]
      simp
    · rw [if_neg hle]
      simp only [List.mem_cons, ih]
      tauto

theorem sorted_insertDoc (d : DocFile) (l : List DocFile)
    (h : List.Pairwise (fun a b => a.priority ≤ b.priority) l) :
    List.Pairwise (fun a b => a.priority ≤ b.priority) (insertDoc d l) := by
  induction l with
  | nil => simp [insertDoc]
  | cons e es ih =>
    rcases List.pairwise_cons.1 h with ⟨he, hes⟩
    unfold insertDoc
    by_cases hle : d.priority ≤ e.priority
    · rw [if_pos hle]
      refine List.pairwise_cons.2 ⟨?_, h⟩
      intro x hx
      rcases List.mem_cons.1 hx with rfl | hx
      · exact hle
      · exact Nat.le_trans hle (he x hx)
    · rw [if_neg hle]
      refine List.pairwise_cons.2 ⟨?_, ih hes⟩
      intro x hx
      rcases (mem_insertDoc x d es).1 hx with rfl | hx
      · exact Nat.le_of_lt (Nat.lt_of_not_le hle)
      · exact he x hx

theorem sorted_sortDocs (l : List DocFile) :
    List.Pairwise (fun a b => a.priority ≤ b.priority) (sortDocs l) := by
  induction l with
  | nil => exact List.Pairwise.nil
  | cons d ds ih => exact sorted_insertDoc d (sortDocs ds) ih

theorem insertDoc_filter_priority (d : DocFile) (l : List DocFile) (pr : Nat) :
    (insertDoc d l).filter (fun x => x.priority == pr) =
      (d :: l).filter (fun x => x.priority == pr) := by
  induction l with
  | nil => rfl
  | cons e es ih =>
    unfold insertDoc
    by_cases hle : d.priority ≤ e.priority
    · rw [if_pos hle]
    · rw [if_neg hle]
      by_cases hd : d.priority = pr
      · have hne : e.priority ≠ pr := by
          have h1 : e.priority < d.priority := Nat.lt_of_not_le hle
          omega
        simp only [List.filter_cons, ih, List.filter_cons,
          beq_iff_eq, hd, hne, if_true, if_false, ite_true, ite_false]
      · simp only [List.filter_cons, ih, List.filter_cons, beq_iff_eq]
        simp [hd]

theorem sortDocs_filter_priority (l : List DocFile) (pr : Nat) :
    (sortDocs l).filter (fun x => x.priority == pr) =
      l.filter (fun x => x.priority == pr) := by
  induction l with
  | nil => rfl
  | cons d ds ih =>
    show (insertDoc d (sortDocs ds)).filter _ = _
    rw [insertDoc_filter_priority, List.filter_cons, List.filter_cons, ih]

theorem flatMap_ite_filter {α β : Type} (l : List α) (c : α → Bool) (f : α → List β) :
    (l.flatMap fun a => if c a then f a else []) = (l.filter c).flatMap f := by
  induction l with
  | nil => rfl
  | cons a l ih =>
    rw [List.flatMap_cons, List.filter_cons]
    by_cases h : c a = true
    · rw [if_pos h, if_pos h, List.flatMap_cons, ih]
    · rw [if_neg h, if_neg h, ih, List.nil_append]

/-- C5 (status: confirmed): the llms-full.txt parts consist of the fixed
preamble, then exactly one four-part document section per loaded record whose
content is non-empty after stripping — in the order of the loaded collection,
which is sorted ascending by priority with ties left in configuration-table
insertion order — and the fixed quick-reference appendix; a record with empty
content contributes nothing, not even a header. -/
theorem c5_full_dump_structure (fs : String → FileState) :
    buildLlmsFullParts (docsOf fs) =
      fullTitle :: fullSummary ::
        (((docsOf fs).filter docNonEmpty).flatMap docSectionParts ++ [quickReference]) ∧
    List.Pairwise (fun a b => a.priority ≤ b.priority) (docsOf fs) ∧
    ∀ pr, (docsOf fs).filter (fun d => d.priority == pr) =
      (rawRecords fs).filter (fun d => d.priority == pr) := by
  refine ⟨?_, sorted_sortDocs _, fun pr => sortDocs_filter_priority _ _⟩
  unfold buildLlmsFullParts
  rw [flatMap_ite_filter]
  rfl

theorem rawRecords_mem_spec (fs : String → FileState) (r : DocFile)
    (hr : r ∈ rawRecords fs) :
    ∃ e ∈ fileConfig, e.1 = r.path ∧ fs e.1 ≠ FileState.absent ∧
      r = ⟨e.1, e.2.1, e.2.2.1, readFileContent (fs e.1), e.2.2.2⟩ := by
  rcases List.mem_filterMap.1 hr with ⟨a, ha, hsome⟩
  cases hfs : fs a.1 with
  | absent =>
      rw [hfs] at hsome
      exact absurd hsome (by simp)
  | ok raw =>
      rw [hfs] at hsome
      have hinj := Option.some_injective _ hsome
      refine ⟨a, ha, by rw [← hinj], by rw [hfs]; simp, by rw [← hinj, hfs]⟩
  | readError msg =>
      rw [hfs] at hsome
      have hinj := Option.some_injective _ hsome
      refine ⟨a, ha, by rw [← hinj], by rw [hfs]; simp, by rw [← hinj, hfs]⟩

theorem rawRecords_mem_of_config (fs : String → FileState)
    (e : String × String × String × Nat) (he : e ∈ fileConfig)
    (hne : fs e.1 ≠ FileState.absent) :
    ∃ r ∈ rawRecords fs, r.path = e.1 := by
  refine ⟨⟨e.1, e.2.1, e.2.2.1, readFileContent (fs e.1), e.2.2.2⟩,
    List.mem_filterMap.2 ⟨e, he, ?_⟩, rfl⟩
  cases hfs : fs e.1 with
  | absent => exact absurd hfs hne
  | ok raw => rfl
  | readError msg => rfl

theorem mem_sortDocs (x : DocFile) (l : List DocFile) :
    x ∈ sortDocs l ↔ x ∈ l := by
  induction l with
  | nil => simp [sortDocs]
  | cons d ds ih =>
    show x ∈ insertDoc d (sortDocs ds) ↔ _
    rw [mem_insertDoc, ih, List.mem_cons]

/-- C6 (status: confirmed): when a configured file exists but reading or
cleaning it raises, the loader prints a warning, still constructs the
`DocFile` for that path with empty content, and keeps processing the other
configured paths (for every other configured path, a record exists exactly
when that file exists). -/
theorem c6_read_error_recovery (fs : String → FileState)
    (p t d : String) (pr : Nat) (msg : String)
    (hmem : (p, t, d, pr) ∈ fileConfig) (herr : fs p = FileState.readError msg) :
    (⟨p, t, d, "", pr⟩ : DocFile) ∈ rawRecords fs ∧
    ("⚠️  Error reading docs/" ++ p ++ ": " ++ msg) ∈ parseWarnings fs ∧
    ∀ e ∈ fileConfig, e.1 ≠ p →
      ((∃ r ∈ rawRecords fs, r.path = e.1) ↔ fs e.1 ≠ FileState.absent) := by
  refine ⟨?_, ?_, ?_⟩
  · refine List.mem_filterMap.2 ⟨(p, t, d, pr), hmem, ?_⟩
    show (match fs p with
      | FileState.absent => none
      | st => some (DocFile.mk p t d (readFileContent st) pr)) =
        some (DocFile.mk p t d "" pr)
    rw [herr]
    rfl
  · refine List.mem_flatMap.2 ⟨(p, t, d, pr), hmem, ?_⟩
    show ("⚠️  Error reading docs/" ++ p ++ ": " ++ msg) ∈
      (match fs p with
        | FileState.absent => []
        | st => readFileWarnings st p)
    rw [herr]
    exact List.mem_singleton.2 rfl
  · intro e he hne
    constructor
    · rintro ⟨r, hr, hpath⟩
      rcases rawRecords_mem_spec fs r hr with ⟨a, ha, hfst, hnabs, hrec⟩
      rw [← hpath, ← hfst]
      exact hnabs
    · intro hnabs
      exact rawRecords_mem_of_config fs e he hnabs

theorem c6_witness :
    (⟨"README.md", "Documentation Index",
        "Complete navigation hub for all Flutter App Shell documentation", "", 1⟩ : DocFile) ∈
      rawRecords (fun q => if q = "README.md" then FileState.readError "disk error" else FileState.absent) ∧
    ("⚠️  Error reading docs/" ++ "README.md" ++ ": " ++ "disk error") ∈
      parseWarnings (fun q => if q = "README.md" then FileState.readError "disk error" else FileState.absent) ∧
    ∀ e ∈ fileConfig, e.1 ≠ "README.md" →
      ((∃ r ∈ rawRecords (fun q => if q = "README.md" then FileState.readError "disk error" else FileState.absent),
          r.path = e.1) ↔
        (fun q => if q = "README.md" then FileState.readError "disk error" else FileState.absent) e.1 ≠
          FileState.absent) :=
  c6_read_error_recovery _ _ _ _ _ _ (by decide) (by decide)

/-- C7 (status: confirmed): after parsing, every record's path is a
configured path whose file was present, and a configured path whose file is
absent yields no record at all. -/
theorem c7_records_only_for_existing (fs : String → FileState) :
    (∀ r ∈ docsOf fs, ∃ e ∈ fileConfig, e.1 = r.path ∧ fs r.path ≠ FileState.absent) ∧
    (∀ e ∈ fileConfig, fs e.1 = FileState.absent → ∀ r ∈ docsOf fs, r.path ≠ e.1) := by
  constructor
  · intro r hr
    rcases rawRecords_mem_spec fs r ((mem_sortDocs r _).1 hr) with ⟨e, he, hfst, hnabs, _⟩
    refine ⟨e, he, hfst, ?_⟩
    rw [← hfst]
    exact hnabs
  · intro e he habs r hr hpath
    rcases rawRecords_mem_spec fs r ((mem_sortDocs r _).1 hr) with ⟨a, ha, hfst, hnabs, _⟩
    rw [hpath] at hfst
    rw [hfst] at hnabs
    exact hnabs habs

theorem c7_witness :
    ∃ e ∈ fileConfig, e.1 = (DocFile.mk "getting-started.md" "Getting Started Guide"
        "Step-by-step tutorial to build your first app in 5-10 minutes" "hello" 1).path ∧
      (fun q => if q = "getting-started.md" then FileState.ok "hello" else FileState.absent)
        (DocFile.mk "getting-started.md" "Getting Started Guide"
          "Step-by-step tutorial to build your first app in 5-10 minutes" "hello" 1).path ≠
        FileState.absent :=
  (c7_records_only_for_existing
      (fun q => if q = "getting-started.md" then FileState.ok "hello" else FileState.absent)).1
    (DocFile.mk "getting-started.md" "Getting Started Guide"
      "Step-by-step tutorial to build your first app in 5-10 minutes" "hello" 1)
    (by decide)

theorem filterMap_congr_on {α β : Type} (l : List α) (f g : α → Option β)
    (h : ∀ a ∈ l, f a = g a) : l.filterMap f = l.filterMap g := by
  induction l with
  | nil => rfl
  | cons a l ih =>
    rw [List.filterMap_cons, List.filterMap_cons, h a (List.mem_cons_self a l),
      ih (fun b hb => h b (List.mem_cons_of_mem a hb))]

/-- C8 (status: confirmed): both outputs are functions of the snapshot of the
documentation directory alone — indeed of its restriction to the ten
configured paths — so two runs over an identical snapshot write byte-identical
`llms.txt` and `llms-full.txt` contents. -/
theorem c8_deterministic_outputs (fs1 fs2 : String → FileState)
    (h : ∀ e ∈ fileConfig, fs1 e.1 = fs2 e.1) :
    llmsTxtOutput fs1 = llmsTxtOutput fs2 ∧ llmsFullOutput fs1 = llmsFullOutput fs2 := by
  have hraw : rawRecords fs1 = rawRecords fs2 := by
    unfold rawRecords
    exact filterMap_congr_on _ _ _ (fun e he => by rw [h e he])
  unfold llmsTxtOutput llmsFullOutput docsOf
  rw [hraw]
  exact ⟨rfl, rfl⟩

theorem c8_witness :
    llmsTxtOutput (fun _ => FileState.absent) = llmsTxtOutput (fun _ => FileState.absent) ∧
    llmsFullOutput (fun _ => FileState.absent) = llmsFullOutput (fun _ => FileState.absent) :=
  c8_deterministic_outputs _ _ (fun _ _ => rfl)

/-- C9 counterexample: at `"intro\n---\n\n*Last updated: 2024-01-01"` the
footer-removal step yields `"intro\n"`, not `"intro\n---\n\n"`; that is, it
removes the horizontal rule and the blank line along with the footer line,
so "nothing other than that footer line is removed by this step" is false. -/
theorem c9_footer_rule_also_removed :
    removeFooter "intro\n---\n\n*Last updated: 2024-01-01".data = "intro\n".data ∧
    removeFooter "intro\n---\n\n*Last updated: 2024-01-01".data ≠
      "intro\n---\n\n".data := by
  exact ⟨by decide, by decide⟩

theorem rfGo_true_eq_nil : ∀ tail : List Char,
    (∀ c ∈ tail, c ≠ '\n') → rfGo true tail = []
  | [], _ => rfl
  | c :: cs, h => by
    have hc : c ≠ '\n' := h c (List.mem_cons_self c cs)
    have hcs : ∀ x ∈ cs, x ≠ '\n' := fun x hx => h x (List.mem_cons_of_mem c hx)
    have step : rfGo true (c :: cs) =
        if c = '\n' then '\n' :: rfGo false cs else rfGo true cs := rfl
    rw [step, if_neg hc]
    exact rfGo_true_eq_nil cs hcs

/-- C9 (status: corrected): for an input ending in a horizontal rule, a blank
line, and a `*Last updated:` footer line (any footer text without further
newlines), the footer-removal step deletes the horizontal rule, the blank
line, and the footer line together — not the footer line alone — and the
cleaned output indeed no longer contains the footer. -/
theorem c9_footer_amended :
    (∀ tail : List Char, (∀ c ∈ tail, c ≠ '\n') →
      removeFooter ("intro\n---\n\n*Last updated:".data ++ tail) = "intro\n".data) ∧
    cleanMarkdownContent "intro\n---\n\n*Last updated: 2024-01-01".data =
      "intro".data := by
  constructor
  · intro tail h
    have h1 : removeFooter ("intro\n---\n\n*Last updated:".data ++ tail) =
        'i' :: 'n' :: 't' :: 'r' :: 'o' :: '\n' :: rfGo true tail := rfl
    rw [h1, rfGo_true_eq_nil tail h]
  · decide

theorem c9_witness :
    removeFooter ("intro\n---\n\n*Last updated:".data ++ " 2024".data) = "intro\n".data :=
  c9_footer_amended.1 " 2024".data (by decide)
